import Mathlib

/-!
Shallow embedding of the trust and access core of the
financial-document-analyzer repository, with theorems checking the
specification's claims against it.

Covered source files:
* `core-backend/app/core/security.py` — JWT issuance and verification.
* `core-backend/app/core/dependencies.py` — bearer-token authentication.
* `core-backend/app/api/v1/auth.py` — the stateless refresh endpoint.
* `security.py` — `RBACManager` permission resolution and the fixed-window
  `RateLimiter`.
* `auth.py` — the store-backed refresh-token rotation endpoint.
* `models.py` — the RBAC and refresh-token data model.
* `core-backend/app/core/rate_limiter.py` — the Redis sliding-window
  middleware and the in-memory fallback limiter.
* `core-backend/app/db/models/role.py` — `Role.has_permission`.

Clock times are unix seconds modelled as `Int`.
-/

namespace FinDoc

/-! ## JWT model (`core-backend/app/core/security.py`)

A token's claim set is `{sub, exp, type}` exactly as built by
`create_access_token` / `create_refresh_token`; `sub` and `type` are
`Option` because `jwt.decode` exposes absent claims as `None`
(`payload.get`).  The HMAC signature is modelled symbolically as a
perfect MAC: signing with a secret over a claim set is injective and a
signature validates only against the very same secret and claims. -/

structure Claims where
  sub : Option String
  exp : Int
  typ : Option String
deriving DecidableEq, Repr

/-- A serialized JWT: the claims travel in the clear, together with a
signature.  The signature field records the (secret, claims) pair it
attests, which is the symbolic model of an unforgeable HMAC. -/
structure Jwt where
  claims : Claims
  sig : String × Claims
deriving DecidableEq, Repr

/-- `jwt.encode(to_encode, SECRET_KEY, ALGORITHM)`. -/
def jwtEncode (secret : String) (c : Claims) : Jwt :=
  ⟨c, (secret, c)⟩

/-- The signature check performed inside `jwt.decode`. -/
def sigValid (secret : String) (t : Jwt) : Prop :=
  t.sig = (secret, t.claims)

instance (secret : String) (t : Jwt) : Decidable (sigValid secret t) := by
  unfold sigValid; infer_instance

/-- `jwt.decode(token, SECRET_KEY, algorithms=[ALGORITHM])` evaluated at
clock time `now`: python-jose validates the signature and the `exp`
claim, raising `JWTError` (hence `None` upstream) when the signature is
wrong or when `exp < now`. -/
def jwtDecode (secret : String) (now : Int) (t : Jwt) : Option Claims :=
  if sigValid secret t ∧ ¬ t.claims.exp < now then some t.claims else none

/-- `ACCESS_TOKEN_EXPIRE_MINUTES` (core-backend `config.py` default). -/
def ACCESS_TOKEN_EXPIRE_MINUTES : Int := 30

/-- `create_access_token(subject, expires_delta)` (security.py lines
24-49): expiry is `now + expires_delta`, or the configured default when
no delta is passed; claims are `{exp, sub: str(subject), type:
"access"}`.  Subjects are modelled as strings, so `str(subject)` is the
identity. -/
def create_access_token (secret : String) (now : Int) (subject : String)
    (expires_delta : Option Int) : Jwt :=
  let expire : Int :=
    match expires_delta with
    | some d => now + d
    | none => now + ACCESS_TOKEN_EXPIRE_MINUTES * 60
  jwtEncode secret { sub := some subject, exp := expire, typ := some "access" }

/-- `verify_token(token, token_type)` (security.py lines 78-104):
decode, check the `type` claim equals `token_type`, check `sub` is
present; every failure returns `None`. -/
def verify_token (secret : String) (now : Int) (t : Jwt) (token_type : String) :
    Option String :=
  match jwtDecode secret now t with
  | none => none
  | some payload =>
    if payload.typ = some token_type then
      match payload.sub with
      | none => none
      | some s => some s
    else none

/-- Authentication failures surfaced by the FastAPI dependencies:
`unauthorized` is HTTP 401, `notFound` is HTTP 404. -/
inductive AuthFailure where
  | unauthorized
  | notFound
deriving DecidableEq, Repr

/-- `get_current_user` (`core-backend/app/core/dependencies.py` lines
16-50): verify the bearer token with expected type `"access"` (the
default), reject with 401 when no subject comes back (Python `not
subject` also catches the empty string), then look the subject up as an
active user — 404 when absent.  `users` abstracts the
`UserService.get_user_by_id` lookup of an active user. -/
def cb_get_current_user (secret : String) (now : Int) (users : String → Bool)
    (t : Jwt) : Except AuthFailure String :=
  match verify_token secret now t "access" with
  | none => .error .unauthorized
  | some s =>
    if s = "" then .error .unauthorized
    else if users s then .ok s else .error .notFound

/-! ## Stateless refresh endpoint (`core-backend/app/api/v1/auth.py` lines 87-115)

`refresh_token` verifies the presented refresh JWT and, when it carries a
subject, answers with a freshly minted access token.  Nothing is stored
and nothing is revoked. -/

/-- Errors raised by the refresh endpoints (HTTP 401 variants). -/
inductive RefreshError where
  | invalid_token
  | inactive_user
deriving DecidableEq, Repr

/-- The core-backend `/auth/refresh` handler: `verify_token(request.refresh_token,
"refresh")`, reject with 401 on a falsy subject, else return
`create_access_token(subject, ACCESS_TOKEN_EXPIRE_MINUTES)`. -/
def cb_refresh (secret : String) (now : Int) (t : Jwt) : Except RefreshError Jwt :=
  match verify_token secret now t "refresh" with
  | none => .error .invalid_token
  | some subject =>
    if subject = "" then .error .invalid_token
    else .ok (create_access_token secret now subject
      (some (ACCESS_TOKEN_EXPIRE_MINUTES * 60)))

/-! ## Store-backed rotation (`auth.py` lines 233-300, `models.py`)

The legacy backend keeps a `refresh_tokens` table.  Its `/auth/refresh`
handler hashes the presented raw token with SHA-256, SELECTs the record
whose hash matches, whose `revoked_at` is NULL and whose `expires_at`
lies in the future, checks the owning user is active, then sets
`revoked_at = utcnow()` on the fetched ORM object, INSERTs a fresh
record, and commits.  The revocation is an application-level
read-then-write: the UPDATE the ORM emits at commit time is keyed only
by primary key and carries no `revoked_at IS NULL` condition. -/

/-- SHA-256 digests, modelled symbolically: hashing is injective within
the model and the raw value is not recoverable from the persisted side. -/
structure Digest where
  of : String
deriving DecidableEq, Repr

/-- `hashlib.sha256(raw.encode()).hexdigest()`. -/
def sha256_hex (s : String) : Digest := ⟨s⟩

/-- One row of the `refresh_tokens` table (`models.py` lines 175-197). -/
structure RefreshTokenRec where
  id : Nat
  user_id : Nat
  token_hash : Digest
  expires_at : Int
  revoked_at : Option Int
deriving DecidableEq, Repr

/-- The persistent state the rotation endpoint touches: the
`refresh_tokens` table, the (user id, is_active) projection of `users`,
and the id the next INSERT receives. -/
structure AuthDb where
  tokens : List RefreshTokenRec
  users : List (Nat × Bool)
  next_id : Nat
deriving DecidableEq, Repr

/-- `REFRESH_TOKEN_EXPIRE_DAYS` (`config.py` default). -/
def REFRESH_TOKEN_EXPIRE_DAYS : Int := 30

/-- The SELECT of `auth.py` lines 244-252: the record whose `token_hash`
matches, with `revoked_at IS NULL` and `expires_at > utcnow()`. -/
def find_valid_token (db : AuthDb) (now : Int) (h : Digest) :
    Option RefreshTokenRec :=
  db.tokens.find? fun t =>
    decide (t.token_hash = h ∧ t.revoked_at = none ∧ now < t.expires_at)

/-- The read phase of the handler (`auth.py` lines 240-271): hash the
raw token, fetch the valid record, fetch the active owning user; the
result is the pair of ids the write phase uses. -/
def rotate_read (db : AuthDb) (now : Int) (raw : String) :
    Except RefreshError (Nat × Nat) :=
  match find_valid_token db now (sha256_hex raw) with
  | none => .error .invalid_token
  | some rec =>
    match db.users.find? fun u => decide (u.1 = rec.user_id ∧ u.2 = true) with
    | none => .error .inactive_user
    | some u => .ok (rec.id, u.1)

/-- `revoked_at` assignment as the ORM flushes it: an UPDATE keyed by
primary key alone, with no condition on the current `revoked_at`. -/
def revoke_record (tokens : List RefreshTokenRec) (rid : Nat) (now : Int) :
    List RefreshTokenRec :=
  tokens.map fun t => if t.id = rid then { t with revoked_at := some now } else t

/-- The write phase of the handler (`auth.py` lines 273-294): revoke the
fetched record and INSERT the successor record for `new_raw`, expiring
`REFRESH_TOKEN_EXPIRE_DAYS` later.  `new_raw` stands for the fresh
random value `secrets.token_urlsafe(64)` produced inside the call. -/
def rotate_write (db : AuthDb) (now : Int) (rid uid : Nat) (new_raw : String) :
    AuthDb :=
  { db with
    tokens := revoke_record db.tokens rid now ++
      [⟨db.next_id, uid, sha256_hex new_raw,
        now + REFRESH_TOKEN_EXPIRE_DAYS * 86400, none⟩]
    next_id := db.next_id + 1 }

/-- The whole `/auth/refresh` handler run in isolation: read phase then
write phase, answering with the new raw refresh value and the updated
store. -/
def refresh_rotate (db : AuthDb) (now : Int) (raw new_raw : String) :
    Except RefreshError (String × AuthDb) :=
  match rotate_read db now raw with
  | .error e => .error e
  | .ok (rid, uid) => .ok (new_raw, rotate_write db now rid uid new_raw)

/-- Two concurrent `/auth/refresh` calls on the same raw token, under
the interleaving the database permits when both SELECTs execute before
either commit: both read phases observe the initial store, the write
phases then commit one after the other (each commit succeeds, since the
UPDATE is unconditional).  Returns the two call results and the final
store. -/
def rotate_pair_interleaved (db : AuthDb) (now : Int) (raw nr1 nr2 : String) :
    Except RefreshError String × Except RefreshError String × AuthDb :=
  match rotate_read db now raw, rotate_read db now raw with
  | .ok (rid1, uid1), .ok (rid2, uid2) =>
    let db1 := rotate_write db now rid1 uid1 nr1
    let db2 := rotate_write db1 now rid2 uid2 nr2
    (.ok nr1, .ok nr2, db2)
  | .error e, .ok (rid2, uid2) => (.error e, .ok nr2, rotate_write db now rid2 uid2 nr2)
  | .ok (rid1, uid1), .error e => (.ok nr1, .error e, rotate_write db now rid1 uid1 nr1)
  | .error e1, .error e2 => (.error e1, .error e2, db)

/-! ## RBAC resolution (`security.py` lines 140-178, `models.py`)

`RBACManager.get_user_permissions` runs one SELECT joining
`permissions ⋈ role_permissions ⋈ roles ⋈ user_roles` and filters on
`UserRole.user_id == user_id AND Role.is_system_role == True`; it
returns the matching (resource, action) pairs as a list (no DISTINCT).
`has_permission` is an `any` over that list comparing both components
for equality (the Python compares `action.value` strings; the enum's
values are pairwise distinct, so this coincides with comparing the
enum members themselves). -/

/-- `RBACAction` (`models.py` lines 33-39). -/
inductive RBACAction where
  | read
  | write
  | delete
  | manage
deriving DecidableEq, Repr

/-- A row of `roles` (`models.py` lines 90-110). -/
structure RoleRec where
  id : Nat
  name : String
  is_system_role : Bool
deriving DecidableEq, Repr

/-- A row of `user_roles` (`models.py` lines 155-172). -/
structure UserRoleRec where
  user_id : Nat
  role_id : Nat
deriving DecidableEq, Repr

/-- A row of `permissions` (`models.py` lines 113-132). -/
structure PermissionRec where
  id : Nat
  resource : String
  action : RBACAction
deriving DecidableEq, Repr

/-- A row of `role_permissions` (`models.py` lines 135-152). -/
structure RolePermissionRec where
  role_id : Nat
  permission_id : Nat
deriving DecidableEq, Repr

/-- The RBAC tables. -/
structure RbacDb where
  roles : List RoleRec
  user_roles : List UserRoleRec
  permissions : List PermissionRec
  role_permissions : List RolePermissionRec
deriving DecidableEq, Repr

/-- `RBACManager.get_user_permissions` (`security.py` lines 156-168):
the join over the four tables with the `user_id` and
`is_system_role == True` filter, projected to (resource, action). -/
def get_user_permissions (db : RbacDb) (user_id : Nat) :
    List (String × RBACAction) :=
  db.permissions.flatMap fun p =>
    db.role_permissions.flatMap fun rp =>
      db.roles.flatMap fun role =>
        db.user_roles.filterMap fun ur =>
          if rp.permission_id = p.id ∧ rp.role_id = role.id ∧
              ur.role_id = role.id ∧ ur.user_id = user_id ∧
              role.is_system_role = true
          then some (p.resource, p.action) else none

/-- `RBACManager.has_permission` (`security.py` lines 170-178). -/
def has_permission (db : RbacDb) (user_id : Nat) (resource : String)
    (action : RBACAction) : Bool :=
  (get_user_permissions db user_id).any fun perm =>
    decide (perm.1 = resource ∧ perm.2 = action)

/-- The role ids the subject holds (every `user_roles` row for the
subject, system role or not). -/
def subject_role_ids (db : RbacDb) (user_id : Nat) : List Nat :=
  db.user_roles.filterMap fun ur =>
    if ur.user_id = user_id then some ur.role_id else none

/-- The (resource, action) pairs attached to one role through
`role_permissions`. -/
def perms_of_role (db : RbacDb) (role_id : Nat) : List (String × RBACAction) :=
  db.permissions.flatMap fun p =>
    db.role_permissions.filterMap fun rp =>
      if rp.permission_id = p.id ∧ rp.role_id = role_id
      then some (p.resource, p.action) else none

/-- Modelled from the spec: `permissions_for(subject)` as the union of
the permission sets attached to every role the subject holds, with no
system-role restriction. -/
def spec_permissions_for (db : RbacDb) (user_id : Nat) :
    List (String × RBACAction) :=
  (subject_role_ids db user_id).flatMap fun rid => perms_of_role db rid

/-- `Role.has_permission` (`core-backend/app/db/models/role.py` lines
103-122): the role stores a JSON list of permission strings; the check
is plain list membership of the exact string.  `none` stands for every
case where the attribute is falsy or fails to parse as JSON. -/
def role_has_permission (permissions_list : Option (List String))
    (permission : String) : Bool :=
  match permissions_list with
  | none => false
  | some l => l.contains permission

/-! ## Rate limiters

Three limiters exist in the repository:

* `RateLimitMiddleware._is_allowed`
  (`core-backend/app/core/rate_limiter.py` lines 87-115): a Redis sorted
  set per client; one pipeline removes scores `≤ now - window`, counts,
  then unconditionally adds the member `str(now)` with score `now`.  The
  member is the rendered timestamp, so re-adding within the same second
  leaves the set unchanged; the set is modelled as a duplicate-free list
  of scores.  The request is admitted iff the count taken before the
  insertion is below the limit.  When the client could not be
  constructed (`_get_redis_client` returned `None`) every request is
  admitted and the store is untouched.
* `InMemoryRateLimiter.is_allowed` (lines 151-170): a per-key list of
  timestamps; old entries are dropped, and the current time is appended
  only when the request is admitted.
* `RateLimiter.check_rate_limit` (`security.py` lines 245-265): a
  fixed-window counter (`GET` / `SETEX` / `INCR`), keeping no
  timestamps at all. -/

/-- `_get_redis_client` (`rate_limiter.py` lines 31-39): building the
client can fail, in which case the middleware holds `None`. -/
def get_redis_client (construction_ok : Bool) : Option Unit :=
  if construction_ok then some () else none

/-- ZADD with member `str(t)`, score `t`: inserting an existing member
only re-scores it, which here is the identity. -/
def zadd_now (z : List Int) (t : Int) : List Int :=
  if t ∈ z then z else z ++ [t]

/-- `RateLimitMiddleware._is_allowed` on the sorted set `z` held for one
client key; returns the verdict and the set the pipeline leaves behind
(the EXPIRE refresh has no observable effect in the model). -/
def mw_is_allowed (client : Option Unit) (z : List Int)
    (now limit window : Int) : Bool × List Int :=
  match client with
  | none => (true, z)
  | some _ =>
    let window_start := now - window
    let kept := z.filter fun t => decide (window_start < t)
    let count : Int := kept.length
    (count < limit, zadd_now kept now)

/-- `RateLimitMiddleware._get_rate_limit_info` (lines 117-137): prune
the set, then report `remaining = max 0 (limit - count)` and
`reset = now + window`. -/
def mw_rate_limit_info (client : Option Unit) (z : List Int)
    (now limit window : Int) : (Int × Int) × List Int :=
  match client with
  | none => ((limit, now + window), z)
  | some _ =>
    let kept := z.filter fun t => decide (now - window < t)
    ((max 0 (limit - kept.length), now + window), kept)

/-- `InMemoryRateLimiter.is_allowed` for one client key holding the
request history `reqs`; returns the verdict and the new history. -/
def mem_is_allowed (reqs : List Int) (now limit window : Int) :
    Bool × List Int :=
  let kept := reqs.filter fun t => decide (now - window < t)
  if kept.length < limit then (true, kept ++ [now]) else (false, kept)

/-- `RateLimiter.check_rate_limit` (`security.py` lines 245-265) on the
counter a Redis key holds (`none` = key absent): first request SETEXes
the counter to 1; otherwise the request is denied when the counter has
reached the limit and INCRed through otherwise.  Returns
`(is_allowed, current_count)` and the new counter. -/
def check_rate_limit (counter : Option Int) (limit : Int) :
    (Bool × Int) × Option Int :=
  match counter with
  | none => ((true, 1), some 1)
  | some c =>
    if limit ≤ c then ((false, c), some c)
    else ((true, c + 1), some (c + 1))

/-- Equality of `Except` results is decidable when both components are. -/
instance {ε α : Type} [DecidableEq ε] [DecidableEq α] :
    DecidableEq (Except ε α) := fun a b =>
  match a, b with
  | .error e1, .error e2 =>
    if h : e1 = e2 then .isTrue (congrArg Except.error h)
    else .isFalse fun hc => h (Except.error.inj hc)
  | .ok v1, .ok v2 =>
    if h : v1 = v2 then .isTrue (congrArg Except.ok h)
    else .isFalse fun hc => h (Except.ok.inj hc)
  | .error _, .ok _ => .isFalse fun hc => Except.noConfusion hc
  | .ok _, .error _ => .isFalse fun hc => Except.noConfusion hc

/-! ## Theorems -/

/-- `verify_token` returns a subject exactly when the signature is
valid, the token is not expired, the type claim matches, and the `sub`
claim carries that subject. -/
theorem verify_token_some_iff (secret : String) (now : Int) (t : Jwt)
    (ty s : String) :
    verify_token secret now t ty = some s ↔
      sigValid secret t ∧ ¬ t.claims.exp < now ∧ t.claims.typ = some ty ∧
        t.claims.sub = some s := by
  by_cases hsig : sigValid secret t
  · by_cases hexp : t.claims.exp < now
    · simp [verify_token, jwtDecode, hsig, hexp]
    · by_cases hty : t.claims.typ = some ty
      · cases hsub : t.claims.sub with
        | none => simp [verify_token, jwtDecode, hsig, hexp, hty, hsub]
        | some u => simp [verify_token, jwtDecode, hsig, hexp, hty, hsub]
      · simp [verify_token, jwtDecode, hsig, hexp, hty]
  · simp [verify_token, jwtDecode, hsig]

/-- C3: for every subject `s` and every `ttl > 0`, verifying the token
produced by `create_access_token(s, ttl)` with expected type `"access"`
immediately after issuance (same clock, same secret) returns exactly
`s`. -/
theorem C3_round_trip (secret : String) (now : Int) (s : String) (ttl : Int)
    (h : 0 < ttl) :
    verify_token secret now (create_access_token secret now s (some ttl))
      "access" = some s := by
  have hlt : ¬ now + ttl < now := by omega
  simp [verify_token, create_access_token, jwtEncode, jwtDecode, sigValid, hlt]

theorem C3_round_trip_witness :
    verify_token "k" 0 (create_access_token "k" 0 "alice" (some 60)) "access" =
      some "alice" :=
  C3_round_trip "k" 0 "alice" 60 (by decide)

/-- C4: `verify_token` returns the subject only when the signature is
valid, the type claim equals the expected type, and the expiry is not in
the past; a bad signature, a wrong type claim, and a past expiry each
produce the same uniform failure result `none`, indistinguishable
across the three causes. -/
theorem C4_uniform_token_error (secret : String) (now : Int) (ty : String)
    (t1 t2 t3 : Jwt)
    (h1 : ¬ sigValid secret t1)
    (h2 : t2.claims.typ ≠ some ty)
    (h3 : t3.claims.exp < now) :
    (∀ t s, verify_token secret now t ty = some s →
      sigValid secret t ∧ ¬ t.claims.exp < now ∧ t.claims.typ = some ty ∧
        t.claims.sub = some s) ∧
    verify_token secret now t1 ty = none ∧
    verify_token secret now t2 ty = none ∧
    verify_token secret now t3 ty = none ∧
    verify_token secret now t1 ty = verify_token secret now t2 ty ∧
    verify_token secret now t2 ty = verify_token secret now t3 ty := by
  have e1 : verify_token secret now t1 ty = none := by
    simp [verify_token, jwtDecode, h1]
  have e2 : verify_token secret now t2 ty = none := by
    by_cases hsig : sigValid secret t2
    · by_cases hexp : t2.claims.exp < now
      · simp [verify_token, jwtDecode, hexp]
      · simp [verify_token, jwtDecode, hsig, hexp, h2]
    · simp [verify_token, jwtDecode, hsig]
  have e3 : verify_token secret now t3 ty = none := by
    simp [verify_token, jwtDecode, h3]
  exact ⟨fun t s hts => (verify_token_some_iff secret now t ty s).mp hts,
    e1, e2, e3, by rw [e1, e2], by rw [e2, e3]⟩

/-- A token whose signature was produced with a different secret. -/
def badSigTok : Jwt :=
  ⟨⟨some "alice", 100, some "access"⟩, ("other", ⟨some "alice", 100, some "access"⟩)⟩

/-- A validly signed token whose type claim is `"refresh"`. -/
def wrongTypeTok : Jwt := jwtEncode "k" ⟨some "alice", 100, some "refresh"⟩

/-- A validly signed access token that expired at time 1. -/
def expiredTok : Jwt := jwtEncode "k" ⟨some "alice", 1, some "access"⟩

theorem C4_uniform_token_error_witness :
    verify_token "k" 50 badSigTok "access" = none ∧
    verify_token "k" 50 wrongTypeTok "access" = none ∧
    verify_token "k" 50 expiredTok "access" = none :=
  let h := C4_uniform_token_error "k" 50 "access" badSigTok wrongTypeTok
    expiredTok (by decide) (by decide) (by decide)
  ⟨h.2.1, h.2.2.1, h.2.2.2.1⟩

/-- C5: a validly signed access token carrying expiry claim `exp`
verifies successfully at clock time `exp - 1` and fails with the uniform
`TokenError` result at clock time `exp + 1`. -/
theorem C5_expiry_boundary (secret : String) (t : Jwt) (s : String)
    (hsig : sigValid secret t) (hty : t.claims.typ = some "access")
    (hsub : t.claims.sub = some s) :
    verify_token secret (t.claims.exp - 1) t "access" = some s ∧
    verify_token secret (t.claims.exp + 1) t "access" = none := by
  constructor
  · have h1 : ¬ t.claims.exp < t.claims.exp - 1 := by omega
    simp [verify_token, jwtDecode, hsig, h1, hty, hsub]
  · have h2 : t.claims.exp < t.claims.exp + 1 := by omega
    simp [verify_token, jwtDecode, h2]

theorem C5_expiry_boundary_witness :
    verify_token "k"
      ((jwtEncode "k" ⟨some "alice", 100, some "access"⟩).claims.exp - 1)
      (jwtEncode "k" ⟨some "alice", 100, some "access"⟩) "access" =
        some "alice" ∧
    verify_token "k"
      ((jwtEncode "k" ⟨some "alice", 100, some "access"⟩).claims.exp + 1)
      (jwtEncode "k" ⟨some "alice", 100, some "access"⟩) "access" = none :=
  C5_expiry_boundary "k" (jwtEncode "k" ⟨some "alice", 100, some "access"⟩)
    "alice" (by decide) (by decide) (by decide)

/-- C10: a token that decodes with a valid signature, an unexpired
expiry and the expected `"access"` type claim but whose `sub` claim is
absent yields no subject from `verify_token`, and a bearer of such a
token is rejected by `get_current_user` with 401 rather than accepted
with an empty identity. -/
theorem C10_missing_sub_rejected (secret : String) (now : Int)
    (users : String → Bool) (t : Jwt)
    (hsig : sigValid secret t) (hexp : ¬ t.claims.exp < now)
    (hty : t.claims.typ = some "access") (hsub : t.claims.sub = none) :
    verify_token secret now t "access" = none ∧
    cb_get_current_user secret now users t = .error .unauthorized := by
  have hv : verify_token secret now t "access" = none := by
    simp [verify_token, jwtDecode, hsig, hexp, hty, hsub]
  exact ⟨hv, by simp [cb_get_current_user, hv]⟩

theorem C10_missing_sub_rejected_witness :
    verify_token "k" 0 (jwtEncode "k" ⟨none, 100, some "access"⟩) "access" =
      none ∧
    cb_get_current_user "k" 0 (fun _ => true)
      (jwtEncode "k" ⟨none, 100, some "access"⟩) = .error .unauthorized :=
  C10_missing_sub_rejected "k" 0 (fun _ => true)
    (jwtEncode "k" ⟨none, 100, some "access"⟩)
    (by decide) (by decide) (by decide) (by decide)

/-- A store holding one active user (id 7) and one live refresh record:
id 0, owned by user 7, hash of the raw value "r", expiring at time 1000,
not revoked. -/
def dbRot : AuthDb :=
  { tokens := [⟨0, 7, sha256_hex "r", 1000, none⟩]
    users := [(7, true)]
    next_id := 1 }

/-- C1 (demonstration of the code defect): running two concurrent
rotation calls on the same raw token "r" against `dbRot`, with both read
phases scheduled before either write phase — an interleaving the
unconditional read-then-write revocation permits — makes BOTH calls
succeed, each returning its own new token pair, and leaves two live
successor records derived from the single parent record.  The claim
requires that at most one such call succeed. -/
theorem C1_rotation_race_both_succeed :
    (rotate_pair_interleaved dbRot 0 "r" "n1" "n2").1 = .ok "n1" ∧
    (rotate_pair_interleaved dbRot 0 "r" "n1" "n2").2.1 = .ok "n2" ∧
    ((rotate_pair_interleaved dbRot 0 "r" "n1" "n2").2.2.tokens.filter
      fun t => decide (t.revoked_at = none)).length = 2 := by
  decide

/-- C2 (amended): in the store-backed flow of `auth.py`, once a rotation
call has succeeded on raw token `raw`, every later rotation presenting
`raw` against the resulting store fails with the invalid-token error, at
every clock time — in particular before the old record's `expires_at`.
Hypotheses: stored hashes are pairwise distinct (raw values are fresh
high-entropy strings, so two records never share a hash), and the fresh
raw value differs from the presented one. -/
theorem C2_rotation_lineage (db : AuthDb) (now : Int) (raw new_raw : String)
    (res : String × AuthDb)
    (huniq : ∀ t1 ∈ db.tokens, ∀ t2 ∈ db.tokens,
      t1.token_hash = t2.token_hash → t1 = t2)
    (hnr : new_raw ≠ raw)
    (hok : refresh_rotate db now raw new_raw = .ok res) :
    ∀ now2 new_raw2,
      refresh_rotate res.2 now2 raw new_raw2 = .error .invalid_token := by
  intro now2 new_raw2
  unfold refresh_rotate rotate_read at hok
  split at hok
  · simp at hok
  · rename_i rid uid heq
    simp only [Except.ok.injEq] at hok
    subst hok
    split at heq
    · simp at heq
    · rename_i rec hfind
      split at heq
      · simp at heq
      · rename_i u huser
        simp only [Except.ok.injEq, Prod.mk.injEq] at heq
        obtain ⟨h1, h2⟩ := heq
        subst h1
        subst h2
        have hrecmem : rec ∈ db.tokens := List.mem_of_find?_eq_some hfind
        have hrecprop := List.find?_some hfind
        rw [decide_eq_true_eq] at hrecprop
        have hnone : find_valid_token (rotate_write db now rec.id u.1 new_raw)
            now2 (sha256_hex raw) = none := by
          unfold find_valid_token rotate_write revoke_record
          rw [List.find?_eq_none]
          intro x hx
          simp only [List.mem_append, List.mem_map, List.mem_singleton] at hx
          rw [decide_eq_true_eq]
          rcases hx with ⟨t, ht, rfl⟩ | rfl
          · by_cases hid : t.id = rec.id
            · simp [hid]
            · simp only [hid, if_false]
              rintro ⟨hhash, -, -⟩
              exact hid (congrArg RefreshTokenRec.id
                (huniq t ht rec hrecmem (hhash.trans hrecprop.1.symm)))
          · rintro ⟨hhash, -, -⟩
            exact hnr (Digest.mk.injEq _ _ ▸ congrArg Digest.of hhash)
        show refresh_rotate (rotate_write db now rec.id u.1 new_raw) now2 raw
          new_raw2 = .error .invalid_token
        unfold refresh_rotate rotate_read
        rw [hnone]

/-- The store `dbRot` leaves behind after a successful rotation at time
0 consuming raw value "r" and issuing raw value "n": the parent record
is revoked at 0 and the successor record expires 30 days later. -/
def dbRotAfter : AuthDb :=
  { tokens := [⟨0, 7, sha256_hex "r", 1000, some 0⟩,
               ⟨1, 7, sha256_hex "n", 2592000, none⟩]
    users := [(7, true)]
    next_id := 2 }

theorem C2_rotation_lineage_witness :
    refresh_rotate dbRot 0 "r" "n" = .ok ("n", dbRotAfter) ∧
    refresh_rotate dbRotAfter 5 "r" "n2" = .error .invalid_token :=
  ⟨by decide, C2_rotation_lineage dbRot 0 "r" "n" ("n", dbRotAfter)
    (by decide) (by decide) (by decide) 5 "n2"⟩

/-- A validly signed refresh JWT for subject "1" expiring at time 1000. -/
def refreshTok : Jwt := jwtEncode "k" ⟨some "1", 1000, some "refresh"⟩

/-- C2 (counterexample): in the core-backend flow, a refresh call that
succeeds on a raw refresh token does NOT make later calls presenting the
same token fail: the endpoint revokes nothing, so a second call before
the token's expiry succeeds again. -/
theorem C2_reuse_accepted_counterexample :
    cb_refresh "k" 0 refreshTok =
      .ok (create_access_token "k" 0 "1"
        (some (ACCESS_TOKEN_EXPIRE_MINUTES * 60))) ∧
    cb_refresh "k" 1 refreshTok =
      .ok (create_access_token "k" 1 "1"
        (some (ACCESS_TOKEN_EXPIRE_MINUTES * 60))) ∧
    (1 : Int) < refreshTok.claims.exp := by
  exact ⟨rfl, rfl, by decide⟩

/-- A database holding one role that the subject (user 7) holds, carrying
permission ("documents", read), but with `is_system_role = false`. -/
def dbNonSystem : RbacDb :=
  { roles := [⟨1, "custom", false⟩]
    user_roles := [⟨7, 1⟩]
    permissions := [⟨1, "documents", RBACAction.read⟩]
    role_permissions := [⟨1, 1⟩] }

/-- C6 (counterexample): `get_user_permissions` is NOT the union of the
permissions of every role the subject holds: user 7 holds role "custom",
which carries ("documents", read), yet the computed permission set is
empty, because the query filters on `is_system_role == True`. -/
theorem C6_union_counterexample :
    get_user_permissions dbNonSystem 7 = [] ∧
    spec_permissions_for dbNonSystem 7 = [("documents", RBACAction.read)] := by
  decide

/-- C6 (amended): `get_user_permissions` computes exactly the union of
the permission sets attached to the subject's roles that are flagged
`is_system_role`; roles held without that flag are excluded, duplicates
and order aside. -/
theorem C6_system_role_union (db : RbacDb) (u : Nat) (r : String)
    (a : RBACAction) :
    (r, a) ∈ get_user_permissions db u ↔
      ∃ role ∈ db.roles, role.is_system_role = true ∧
        role.id ∈ subject_role_ids db u ∧ (r, a) ∈ perms_of_role db role.id := by
  simp only [get_user_permissions, subject_role_ids, perms_of_role,
    List.mem_flatMap, List.mem_filterMap, Option.ite_none_right_eq_some,
    Option.some.injEq, Prod.mk.injEq]
  constructor
  · rintro ⟨p, hp, rp, hrp, role, hrole, ur, hur,
      ⟨hpid, hrid, hurrole, huru, hsys⟩, hres, hact⟩
    exact ⟨role, hrole, hsys, ⟨ur, hur, huru, hurrole⟩,
      p, hp, rp, hrp, ⟨hpid, hrid⟩, hres, hact⟩
  · rintro ⟨role, hrole, hsys, ⟨ur, hur, huru, hurrole⟩,
      p, hp, rp, hrp, ⟨hpid, hrid⟩, hres, hact⟩
    exact ⟨p, hp, rp, hrp, role, hrole, ur, hur,
      ⟨hpid, hrid, hurrole, huru, hsys⟩, hres, hact⟩

/-- A database where the subject's only system role carries exactly
("documents", manage) and nothing else. -/
def dbManageOnly : RbacDb :=
  { roles := [⟨1, "admin", true⟩]
    user_roles := [⟨7, 1⟩]
    permissions := [⟨1, "documents", RBACAction.manage⟩]
    role_permissions := [⟨1, 1⟩] }

/-- C7: `has_permission` is an exact match on the (resource, action)
pair — it holds iff the pair itself is among the subject's resolved
permissions — and `Role.has_permission` of the core-backend is exact
string membership; in particular a subject granted only
("documents", manage) fails a check for ("documents", read), and a role
holding only "documents:manage" does not satisfy "documents:read". -/
theorem C7_exact_pair_match :
    (∀ db u r a, has_permission db u r a = true ↔
      (r, a) ∈ get_user_permissions db u) ∧
    (∀ l p, role_has_permission (some l) p = true ↔ p ∈ l) ∧
    has_permission dbManageOnly 7 "documents" RBACAction.manage = true ∧
    has_permission dbManageOnly 7 "documents" RBACAction.read = false ∧
    role_has_permission (some ["documents:manage"]) "documents:manage" = true ∧
    role_has_permission (some ["documents:manage"]) "documents:read" = false := by
  refine ⟨?_, ?_, by decide, by decide, by decide, by decide⟩
  · intro db u r a
    simp only [has_permission, List.any_eq_true, decide_eq_true_eq]
    constructor
    · rintro ⟨⟨pr, pa⟩, hmem, h1, h2⟩
      subst h1
      subst h2
      exact hmem
    · intro hmem
      exact ⟨(r, a), hmem, rfl, rfl⟩
  · intro l p
    simp [role_has_permission]

/-- The timestamps recorded for a key that fall inside the trailing
window at clock time `now` (strictly newer than `now - window`). -/
def in_window (l : List Int) (now window : Int) : List Int :=
  l.filter fun t => decide (now - window < t)

/-- `mem_is_allowed` written through `in_window` (definitional). -/
theorem mem_is_allowed_eq (reqs : List Int) (now limit window : Int) :
    mem_is_allowed reqs now limit window =
      if ((in_window reqs now window).length : Int) < limit
      then (true, in_window reqs now window ++ [now])
      else (false, in_window reqs now window) := rfl

/-- `mw_is_allowed` on a live client, written through `in_window`
(definitional). -/
theorem mw_is_allowed_eq (z : List Int) (now limit window : Int) :
    mw_is_allowed (some ()) z now limit window =
      (decide (((in_window z now window).length : Int) < limit),
        zadd_now (in_window z now window) now) := rfl

/-- `mw_rate_limit_info` on a live client, written through `in_window`
(definitional). -/
theorem mw_rate_limit_info_eq (z : List Int) (now limit window : Int) :
    mw_rate_limit_info (some ()) z now limit window =
      ((max 0 (limit - (in_window z now window).length), now + window),
        in_window z now window) := rfl

/-- C8 (counterexample): the Redis middleware records a timestamp for a
DENIED request.  With limit 2 and window 60, a key already holding the
in-window timestamps 10 and 20 denies the request arriving at time 30,
yet the pipeline still adds 30 to the stored set; the claim requires
that a denied request record nothing. -/
theorem C8_denied_request_recorded :
    mw_is_allowed (some ()) [10, 20] 30 2 60 = (false, [10, 20, 30]) := by
  decide

/-- C8 (amended): the in-memory fallback follows the sliding-window-log
algorithm — drop entries older than `now - window`, admit iff the
remaining count is below the limit, and record `now` only for admitted
requests — while the Redis middleware admits iff the pre-insertion
in-window count is below the limit but records `now` unconditionally,
denied requests included; the `remaining` it reports afterwards is
`max 0 (limit - count)` over the post-insertion set, which for an
admitted request equals `limit - count - 1` over the pre-insertion
count. -/
theorem C8_sliding_window_amended :
    (∀ reqs now limit window,
      ((mem_is_allowed reqs now limit window).1 = true ↔
        ((in_window reqs now window).length : Int) < limit) ∧
      (((in_window reqs now window).length : Int) < limit →
        (mem_is_allowed reqs now limit window).2 =
          in_window reqs now window ++ [now]) ∧
      (¬ ((in_window reqs now window).length : Int) < limit →
        (mem_is_allowed reqs now limit window).2 = in_window reqs now window)) ∧
    (∀ z now limit window,
      ((mw_is_allowed (some ()) z now limit window).1 = true ↔
        ((in_window z now window).length : Int) < limit) ∧
      now ∈ (mw_is_allowed (some ()) z now limit window).2) ∧
    (∀ z now limit window,
      (mw_rate_limit_info (some ()) z now limit window).1.1 =
        max 0 (limit - (in_window z now window).length)) ∧
    (∀ z now limit window, 0 < window →
      now ∉ in_window z now window →
      ((in_window z now window).length : Int) < limit →
      (mw_rate_limit_info (some ())
          (mw_is_allowed (some ()) z now limit window).2 now limit
          window).1.1 =
        limit - (in_window z now window).length - 1) := by
  refine ⟨?_, ?_, ?_, ?_⟩
  · intro reqs now limit window
    rw [mem_is_allowed_eq]
    refine ⟨?_, ?_, ?_⟩
    · by_cases h : ((in_window reqs now window).length : Int) < limit <;>
        simp [h]
    · intro h
      rw [if_pos h]
    · intro h
      rw [if_neg h]
  · intro z now limit window
    rw [mw_is_allowed_eq]
    constructor
    · simp
    · simp only [zadd_now]
      by_cases hmem : now ∈ in_window z now window <;> simp [hmem]
  · intro z now limit window
    rw [mw_rate_limit_info_eq]
  · intro z now limit window hw hnotmem hcount
    have hstate : (mw_is_allowed (some ()) z now limit window).2 =
        in_window z now window ++ [now] := by
      rw [mw_is_allowed_eq]
      simp only [zadd_now]
      rw [if_neg hnotmem]
    have hkeep : in_window (in_window z now window ++ [now]) now window =
        in_window z now window ++ [now] := by
      unfold in_window
      rw [List.filter_eq_self]
      intro a ha
      rw [List.mem_append] at ha
      rcases ha with ha | ha
      · exact (List.mem_filter.mp ha).2
      · rw [List.mem_singleton] at ha
        subst ha
        rw [decide_eq_true_eq]
        omega
    rw [hstate, mw_rate_limit_info_eq, hkeep, List.length_append,
      List.length_singleton]
    have hlen : ((in_window z now window).length : Int) + 1 ≤ limit := hcount
    push_cast
    omega

theorem C8_sliding_window_amended_witness :
    (mem_is_allowed [10] 30 2 60).2 = in_window [10] 30 60 ++ [30] ∧
    (mem_is_allowed [10, 20] 30 2 60).2 = in_window [10, 20] 30 60 ∧
    (mw_rate_limit_info (some ())
        (mw_is_allowed (some ()) [10] 30 2 60).2 30 2 60).1.1 =
      2 - (in_window [10] 30 60).length - 1 :=
  ⟨(C8_sliding_window_amended.1 [10] 30 2 60).2.1 (by decide),
   (C8_sliding_window_amended.1 [10, 20] 30 2 60).2.2 (by decide),
   C8_sliding_window_amended.2.2.2 [10] 30 2 60 (by decide) (by decide)
     (by decide)⟩

/-- `RateLimitMiddleware._is_allowed` with the store's call-time
reachability made explicit.  `redis.from_url` performs no network round
trip, so a constructed client says nothing about the store; the round
trip happens at `pipe.execute()` (`rate_limiter.py` line 112), which
raises a `ConnectionError` when the store cannot be reached — and
`_is_allowed` wraps it in no try/except, so the exception propagates out
of `dispatch` and the request fails.  `.error ()` models that unhandled
exception; the no-client and reachable-store paths behave as in
`mw_is_allowed`. -/
def mw_is_allowed_io (client : Option Unit) (reachable : Bool)
    (z : List Int) (now limit window : Int) :
    Except Unit (Bool × List Int) :=
  match client with
  | none => .ok (true, z)
  | some c =>
    if reachable then .ok (mw_is_allowed (some c) z now limit window)
    else .error ()

/-- C9 (counterexample): with a constructed client and the counting
store unreachable at call time (limit and window at their configured
defaults 100 and 60), the admission check does not return allowed — the
pipeline call raises and the error propagates, failing the request.  The
claim requires every such call to return allowed=true. -/
theorem C9_unreachable_store_raises :
    mw_is_allowed_io (some ()) false [] 0 100 60 = .error () := rfl

/-- C9 (amended): the limiter fails open only for client-construction
failure: when `_get_redis_client` yielded `None`, every admission check
returns allowed and leaves the store untouched, whatever the store's
reachability; but when a client exists and the store is unreachable at
call time, the pipeline raises an unhandled error and the request is not
admitted. -/
theorem C9_fail_open_amended :
    (∀ (reachable : Bool) (z : List Int) (now limit window : Int),
      mw_is_allowed_io none reachable z now limit window = .ok (true, z)) ∧
    get_redis_client false = none ∧
    (∀ (reachable : Bool) (z : List Int) (now limit window : Int),
      mw_is_allowed_io (get_redis_client false) reachable z now limit window =
        .ok (true, z)) ∧
    (∀ (z : List Int) (now limit window : Int),
      mw_is_allowed_io (some ()) false z now limit window = .error ()) := by
  exact ⟨fun _ _ _ _ _ => rfl, rfl, fun _ _ _ _ _ => rfl, fun _ _ _ _ => rfl⟩

end FinDoc
